import Mathlib

/-!
Verification development for the sunbeam storage-backend layer
(`sunbeam/storage/backends/dellpowerstore/backend.py` and its tests).

The Dell PowerStore configuration schema and backend metadata are translated
from the source file.  The generic validation engine (`StorageBackendConfig`),
the secret-field marker (`SecretDictField`) and the backend registry live in
modules of the repository that are not part of the extract, so they are
modelled from the specification, as indicated on each definition.
-/

/-- Raw values appearing in the flat key-value configuration input handed to
validation (strings or booleans, per the external-interface description). -/
inductive RawValue where
| str (s : String)
| bool (b : Bool)
deriving DecidableEq

/-- A raw configuration mapping: an association list from external key names
to raw values, first binding wins (dictionary semantics). -/
abbrev RawConfig := List (String × RawValue)

/-- Dictionary lookup in a raw configuration. -/
def lookupRaw : RawConfig → String → Option RawValue
| [], _ => none
| (k, v) :: rest, key => if k = key then some v else lookupRaw rest key

/-- Metadata attached to a declared configuration field: a pydantic
`Field(description=...)` entry or a `SecretDictField(field=...)` secret marker
carrying the external (wire) key name. -/
inductive FieldMeta where
| fieldInfo (description : String)
| secretDictField (field : String)
deriving DecidableEq

/-- Value type of a configuration field: plain string, boolean, or an
enum-of-strings with its allowed members. -/
inductive ValueType where
| string
| boolean
| enum (allowed : List String)
deriving DecidableEq

/-- A declared configuration field: internal name, value type, whether it is
required (no default), and its attached metadata list. -/
structure ConfigField where
  name : String
  valueType : ValueType
  required : Bool
  metadata : List FieldMeta
deriving DecidableEq

/-- Modelled from the spec: a metadata entry is a secret marker exactly when
it is a `SecretDictField` (`sunbeam.storage.models.SecretDictField` is not in
the extract). -/
def isSecretMarker : FieldMeta → Bool
| FieldMeta.secretDictField _ => true
| FieldMeta.fieldInfo _ => false

/-- Modelled from the spec: a field is secret iff at least one secret marker
is attached to it. -/
def isSecretField (f : ConfigField) : Bool :=
  f.metadata.any isSecretMarker

/-- The external key recorded by the first secret marker of a field, when
any is present. -/
def secretKey (f : ConfigField) : Option String :=
  f.metadata.findSome? fun m =>
    match m with
    | FieldMeta.secretDictField k => some k
    | FieldMeta.fieldInfo _ => none

/-- Modelled from the spec: the wire key under which a field is looked up in
the raw input: the secret marker's external key for secret fields, the
internal field name otherwise. -/
def externalKey (f : ConfigField) : String :=
  (secretKey f).getD f.name

/-- A typed value held by a validated configuration. -/
inductive TypedValue where
| str (s : String)
| bool (b : Bool)
deriving DecidableEq

/-- Field-level validation failures, per the spec's error taxonomy. -/
inductive VError where
| missingRequiredField (field : String)
| invalidFieldValue (field : String) (value : RawValue)
deriving DecidableEq

/-- Modelled from the spec: coerce a raw value to a field's value type.
Strings only accept strings, booleans accept true/false verbatim (never the
strings "true"/"false"), enum fields membership-check their allowed list. -/
def coerceValue (t : ValueType) (v : RawValue) : Option TypedValue :=
  match t, v with
  | ValueType.string, RawValue.str s => some (TypedValue.str s)
  | ValueType.boolean, RawValue.bool b => some (TypedValue.bool b)
  | ValueType.enum allowed, RawValue.str s =>
      if allowed.contains s then some (TypedValue.str s) else none
  | _, _ => none

/-- Modelled from the spec: errors contributed by one field given the raw
value found (or not found) under its external key. -/
def checkValue (f : ConfigField) : Option RawValue → List VError
| none =>
    if f.required then [VError.missingRequiredField (externalKey f)] else []
| some v =>
    match coerceValue f.valueType v with
    | some _ => []
    | none => [VError.invalidFieldValue (externalKey f) v]

/-- Errors contributed by one declared field against a raw input. -/
def fieldErrors (raw : RawConfig) (f : ConfigField) : List VError :=
  checkValue f (lookupRaw raw (externalKey f))

/-- Modelled from the spec: all field-level failures of one validation pass,
collected in schema order (not fail-fast). -/
def validateErrors (schema : List ConfigField) (raw : RawConfig) : List VError :=
  match schema with
  | [] => []
  | f :: fs => fieldErrors raw f ++ validateErrors fs raw

/-- A validated configuration: for every declared field, its typed value, or
`none` when the field is optional and was absent. -/
abbrev ValidatedConfig := List (String × Option TypedValue)

/-- The entries of the validated configuration produced on success. -/
def validatedEntries (schema : List ConfigField) (raw : RawConfig) : ValidatedConfig :=
  match schema with
  | [] => []
  | f :: fs =>
      (f.name, (lookupRaw raw (externalKey f)).bind (coerceValue f.valueType))
        :: validatedEntries fs raw

/-- Lookup of a field's slot in a validated configuration: `none` when the
field is not among the entries, `some v` (with `v` possibly unset) when it is. -/
def lookupEntry : ValidatedConfig → String → Option (Option TypedValue)
| [], _ => none
| (k, v) :: rest, key => if k = key then some v else lookupEntry rest key

/-- Modelled from the spec: validate a raw input against a schema, returning
the validated configuration, or the single aggregated list of all field-level
failures found in the pass. -/
def validate (schema : List ConfigField) (raw : RawConfig) :
    Except (List VError) ValidatedConfig :=
  if validateErrors schema raw = [] then
    Except.ok (validatedEntries schema raw)
  else
    Except.error (validateErrors schema raw)

/-- Modelled from the spec: render a field-level failure as message text; the
spec requires the offending field name to appear in the message. -/
def errorMessage : VError → String
| VError.missingRequiredField f => "missing required field: " ++ f
| VError.invalidFieldValue f _ => "invalid value for field: " ++ f

/-- Substring test: `containsSub hay needle` is true iff `needle` occurs
contiguously in `hay`. -/
def containsSub (hay needle : String) : Bool :=
  (List.range (hay.toList.length + 1)).any fun i =>
    needle.toList.isPrefixOf (hay.toList.drop i)

/-- The declared fields of `DellPwerstoreConfig`, translated field by field
from `sunbeam/storage/backends/dellpowerstore/backend.py` (internal name,
declared type, required iff no `= None` default, annotation metadata). -/
def dellPwerstoreConfigFields : List ConfigField :=
  [⟨"san_ip", ValueType.string, true,
      [FieldMeta.fieldInfo "Dell PowerStore management IP",
       FieldMeta.secretDictField "san-ip"]⟩,
   ⟨"san_username", ValueType.string, true,
      [FieldMeta.fieldInfo "Dell PowerStore management username",
       FieldMeta.secretDictField "san-username"]⟩,
   ⟨"san_password", ValueType.string, true,
      [FieldMeta.fieldInfo " Dell PowerStore management password",
       FieldMeta.secretDictField "san-password"]⟩,
   ⟨"protocol", ValueType.enum ["fc", "iscsi"], true,
      [FieldMeta.fieldInfo "Storage protocol (fc or iscsi)"]⟩,
   ⟨"volume_backend_name", ValueType.string, false,
      [FieldMeta.fieldInfo "Name that Cinder will report for this backend"]⟩,
   ⟨"backend_availability_zone", ValueType.string, false,
      [FieldMeta.fieldInfo "Availability zone to associate with this backend"]⟩,
   ⟨"driver_ssl_cert", ValueType.string, false,
      [FieldMeta.fieldInfo "SSL certificate content in PEM format"]⟩,
   ⟨"powerstore_nvme", ValueType.string, false,
      [FieldMeta.fieldInfo "Enables the connection to use NVMe based protocol"]⟩,
   ⟨"powerstore_ports", ValueType.string, false,
      [FieldMeta.fieldInfo "Comma separated list of PowerStore iSCSI IPs or FC WWNs"]⟩,
   ⟨"replication_device", ValueType.string, false,
      [FieldMeta.fieldInfo "Specific replication configuration settings"]⟩]

/-- Validation of a raw input against the Dell PowerStore schema. -/
def dellValidate (raw : RawConfig) : Except (List VError) ValidatedConfig :=
  validate dellPwerstoreConfigFields raw

/-- The external keys of the Dell PowerStore schema, in declaration order. -/
def dellExternalKeys : List String :=
  dellPwerstoreConfigFields.map externalKey

/-- The external keys of the mandatory SAN connection fields. -/
def sanExternalKeys : List String :=
  ["san-ip", "san-username", "san-password"]

/-- Lookup of a declared field of the Dell PowerStore schema by its internal
name. -/
def findDellField (name : String) : Option ConfigField :=
  dellPwerstoreConfigFields.find? fun f => f.name = name

/-- A storage backend's static metadata, translated from the attributes and
properties of the backend classes. -/
structure Backend where
  backend_type : String
  display_name : String
  charm_name : String
  charm_channel : String
  charm_revision : Option String
  charm_base : String
deriving DecidableEq

/-- The Dell PowerStore backend, translated from class `DellPowertoreBackend`
in `sunbeam/storage/backends/dellpowerstore/backend.py`. -/
def dellPowertoreBackend : Backend :=
  ⟨"dellpowerstore", "Dell PowerStore", "cinder-volume-dellpowerstore",
   "2025.1/edge", none, "ubuntu@24.04"⟩

/-- Modelled from the spec: the Hitachi backend variant (its source module is
not in the extract); type and charm name follow the registry tables of the
spec and the common backend tests. -/
def hitachiBackend : Backend :=
  ⟨"hitachi", "Hitachi", "cinder-volume-hitachi", "2025.1/edge", none,
   "ubuntu@24.04"⟩

/-- Modelled from the spec: the Pure Storage backend variant (its source
module is not in the extract). -/
def purestorageBackend : Backend :=
  ⟨"purestorage", "Pure Storage", "cinder-volume-purestorage", "2025.1/edge",
   none, "ubuntu@24.04"⟩

/-- Modelled from the spec: the Dell Storage Center backend variant (its
source module is not in the extract). -/
def dellSCBackend : Backend :=
  ⟨"dellsc", "Dell Storage Center", "cinder-volume-dellsc", "2025.1/edge",
   none, "ubuntu@24.04"⟩

/-- The backends registered in this system, in the fixture order of the
common backend tests. -/
def registeredBackends : List Backend :=
  [hitachiBackend, purestorageBackend, dellSCBackend, dellPowertoreBackend]

/-- Registration failures, per the spec's error taxonomy for the registry. -/
inductive RegError where
| duplicateBackendType
| duplicateDeployableUnit
| emptyBackendType
deriving DecidableEq

/-- Modelled from the spec: the registry rejects an empty backend type, a
backend type colliding with an already registered backend
(`DuplicateBackendType`), and a colliding deployable-unit (charm) name
(`DuplicateDeployableUnit`); otherwise the backend is appended. -/
def register (r : List Backend) (b : Backend) : Except RegError (List Backend) :=
  if b.backend_type = "" then
    Except.error RegError.emptyBackendType
  else if r.any fun x => x.backend_type == b.backend_type then
    Except.error RegError.duplicateBackendType
  else if r.any fun x => x.charm_name == b.charm_name then
    Except.error RegError.duplicateDeployableUnit
  else
    Except.ok (r ++ [b])

/-- The registry state after attempting a registration: unchanged when the
registration fails. -/
def regCommit (r : List Backend) (b : Backend) : List Backend :=
  match register r b with
  | Except.ok next => next
  | Except.error _ => r

/-- Registry states reachable from the empty registry by successful
registrations. -/
inductive Reachable : List Backend → Prop where
| nil : Reachable []
| step (r : List Backend) (b : Backend) (next : List Backend)
    (h : Reachable r) (hr : register r b = Except.ok next) : Reachable next


theorem lookupRaw_eq_none (raw : RawConfig) (k : String)
    (h : ∀ p ∈ raw, p.1 ≠ k) : lookupRaw raw k = none := by
  induction raw with
  | nil => rfl
  | cons p rest ih =>
    have hp : p.1 ≠ k := h p (List.mem_cons_self p rest)
    simp only [lookupRaw]
    rw [if_neg hp]
    exact ih fun q hq => h q (List.mem_cons_of_mem p hq)

theorem lookupRaw_append (base extra : RawConfig) (k : String)
    (h : ∀ p ∈ extra, p.1 ≠ k) :
    lookupRaw (base ++ extra) k = lookupRaw base k := by
  induction base with
  | nil => simpa using lookupRaw_eq_none extra k h
  | cons p rest ih =>
    simp only [List.cons_append, lookupRaw]
    by_cases hp : p.1 = k
    · rw [if_pos hp, if_pos hp]
    · rw [if_neg hp, if_neg hp]
      exact ih

theorem validateErrors_ext (schema : List ConfigField) (r1 r2 : RawConfig)
    (h : ∀ f ∈ schema, lookupRaw r1 (externalKey f) = lookupRaw r2 (externalKey f)) :
    validateErrors schema r1 = validateErrors schema r2 := by
  induction schema with
  | nil => rfl
  | cons f fs ih =>
    simp only [validateErrors, fieldErrors]
    rw [h f (List.mem_cons_self f fs),
      ih fun g hg => h g (List.mem_cons_of_mem f hg)]

theorem validatedEntries_ext (schema : List ConfigField) (r1 r2 : RawConfig)
    (h : ∀ f ∈ schema, lookupRaw r1 (externalKey f) = lookupRaw r2 (externalKey f)) :
    validatedEntries schema r1 = validatedEntries schema r2 := by
  induction schema with
  | nil => rfl
  | cons f fs ih =>
    simp only [validatedEntries]
    rw [h f (List.mem_cons_self f fs),
      ih fun g hg => h g (List.mem_cons_of_mem f hg)]

theorem validate_ext (schema : List ConfigField) (r1 r2 : RawConfig)
    (h : ∀ f ∈ schema, lookupRaw r1 (externalKey f) = lookupRaw r2 (externalKey f)) :
    validate schema r1 = validate schema r2 := by
  unfold validate
  rw [validateErrors_ext schema r1 r2 h, validatedEntries_ext schema r1 r2 h]

theorem dellValidate_append_undeclared (base extra : RawConfig)
    (hx : ∀ p ∈ extra, p.1 ∉ dellExternalKeys) :
    dellValidate (base ++ extra) = dellValidate base := by
  unfold dellValidate
  refine validate_ext _ _ _ fun f hf => ?_
  refine lookupRaw_append base extra (externalKey f) fun p hp hpk => ?_
  exact hx p hp (hpk ▸ List.mem_map_of_mem externalKey hf)

theorem mem_validateErrors_of_missing (schema : List ConfigField)
    (raw : RawConfig) (f : ConfigField) (hf : f ∈ schema)
    (hreq : f.required = true) (h : lookupRaw raw (externalKey f) = none) :
    VError.missingRequiredField (externalKey f) ∈ validateErrors schema raw := by
  induction schema with
  | nil => cases hf
  | cons g gs ih =>
    rcases List.mem_cons.mp hf with rfl | hf2
    · refine List.mem_append_left _ ?_
      simp [fieldErrors, checkValue, h, hreq]
    · exact List.mem_append_right _ (ih hf2)

theorem dellValidate_error_of_ne (raw : RawConfig)
    (h : validateErrors dellPwerstoreConfigFields raw ≠ []) :
    dellValidate raw = Except.error (validateErrors dellPwerstoreConfigFields raw) := by
  unfold dellValidate validate
  rw [if_neg h]

/-- Claim C1 (code-bug evidence): the source declares `powerstore_nvme` as an
optional string, so validating the test input that supplies the typed boolean
`true` (with the required SAN fields) is rejected with an `InvalidFieldValue`
for `powerstore_nvme` (besides the missing required `protocol`), instead of
succeeding with a typed boolean; the rejection persists when `protocol` is
supplied. -/
theorem powerstore_nvme_bool_rejected :
    dellValidate [("san-ip", RawValue.str "192.168.1.1"),
        ("san-username", RawValue.str "admin"), ("san-password", RawValue.str "secret"),
        ("powerstore_nvme", RawValue.bool true)]
      = Except.error [VError.missingRequiredField "protocol",
          VError.invalidFieldValue "powerstore_nvme" (RawValue.bool true)]
    ∧ dellValidate [("san-ip", RawValue.str "192.168.1.1"),
        ("san-username", RawValue.str "admin"), ("san-password", RawValue.str "secret"),
        ("protocol", RawValue.str "fc"), ("powerstore_nvme", RawValue.bool true)]
      = Except.error [VError.invalidFieldValue "powerstore_nvme" (RawValue.bool true)] :=
  ⟨rfl, rfl⟩

/-- Claim C2: with the required SAN fields supplied (plus arbitrary
unrecognized extra keys), validating with `protocol` mapped to `"fc"` succeeds
and the validated configuration holds `protocol == "fc"`, while `protocol`
mapped to `"INVALID"` fails with an `InvalidFieldValue` error for `protocol`
whose message text contains "protocol". -/
theorem protocol_roundtrip (s1 s2 s3 : String) (extra : RawConfig)
    (hx : ∀ p ∈ extra, p.1 ∉ dellExternalKeys) :
    (∃ cfg, dellValidate ([("san-ip", RawValue.str s1), ("san-username", RawValue.str s2),
        ("san-password", RawValue.str s3), ("protocol", RawValue.str "fc")] ++ extra)
        = Except.ok cfg
      ∧ lookupEntry cfg "protocol" = some (some (TypedValue.str "fc")))
    ∧ dellValidate ([("san-ip", RawValue.str s1), ("san-username", RawValue.str s2),
        ("san-password", RawValue.str s3), ("protocol", RawValue.str "INVALID")] ++ extra)
        = Except.error [VError.invalidFieldValue "protocol" (RawValue.str "INVALID")]
    ∧ containsSub (errorMessage (VError.invalidFieldValue "protocol" (RawValue.str "INVALID")))
        "protocol" = true := by
  refine ⟨⟨validatedEntries dellPwerstoreConfigFields
      [("san-ip", RawValue.str s1), ("san-username", RawValue.str s2),
       ("san-password", RawValue.str s3), ("protocol", RawValue.str "fc")], ?_, rfl⟩,
    ?_, by decide⟩
  · rw [dellValidate_append_undeclared _ _ hx]
    rfl
  · rw [dellValidate_append_undeclared _ _ hx]
    rfl

/-- Witness for C2 at concrete inputs, with one unrecognized extra key. -/
theorem protocol_roundtrip_witness :
    (∃ cfg, dellValidate ([("san-ip", RawValue.str "192.168.1.1"),
        ("san-username", RawValue.str "admin"), ("san-password", RawValue.str "secret"),
        ("protocol", RawValue.str "fc")] ++ [("junk", RawValue.bool true)])
        = Except.ok cfg
      ∧ lookupEntry cfg "protocol" = some (some (TypedValue.str "fc")))
    ∧ dellValidate ([("san-ip", RawValue.str "192.168.1.1"),
        ("san-username", RawValue.str "admin"), ("san-password", RawValue.str "secret"),
        ("protocol", RawValue.str "INVALID")] ++ [("junk", RawValue.bool true)])
        = Except.error [VError.invalidFieldValue "protocol" (RawValue.str "INVALID")]
    ∧ containsSub (errorMessage (VError.invalidFieldValue "protocol" (RawValue.str "INVALID")))
        "protocol" = true :=
  protocol_roundtrip "192.168.1.1" "admin" "secret" [("junk", RawValue.bool true)] (by decide)

/-- Claim C3: a raw input lacking any of the external keys `san-ip`,
`san-username`, `san-password` fails validation with the single aggregated
error list of the pass, and that list contains a `MissingRequiredField` entry
naming each absent one of those keys. -/
theorem missing_san_fields_aggregated (raw : RawConfig)
    (hmiss : ∃ k ∈ sanExternalKeys, lookupRaw raw k = none) :
    dellValidate raw = Except.error (validateErrors dellPwerstoreConfigFields raw)
    ∧ ∀ k ∈ sanExternalKeys, lookupRaw raw k = none →
        VError.missingRequiredField k ∈ validateErrors dellPwerstoreConfigFields raw := by
  have hall : ∀ k ∈ sanExternalKeys, lookupRaw raw k = none →
      VError.missingRequiredField k ∈ validateErrors dellPwerstoreConfigFields raw := by
    intro k hk hnone
    have hk2 : k = "san-ip" ∨ k = "san-username" ∨ k = "san-password" := by
      simpa [sanExternalKeys] using hk
    rcases hk2 with rfl | rfl | rfl
    · exact mem_validateErrors_of_missing _ raw
        ⟨"san_ip", ValueType.string, true,
         [FieldMeta.fieldInfo "Dell PowerStore management IP",
          FieldMeta.secretDictField "san-ip"]⟩ (by decide) rfl hnone
    · exact mem_validateErrors_of_missing _ raw
        ⟨"san_username", ValueType.string, true,
         [FieldMeta.fieldInfo "Dell PowerStore management username",
          FieldMeta.secretDictField "san-username"]⟩ (by decide) rfl hnone
    · exact mem_validateErrors_of_missing _ raw
        ⟨"san_password", ValueType.string, true,
         [FieldMeta.fieldInfo " Dell PowerStore management password",
          FieldMeta.secretDictField "san-password"]⟩ (by decide) rfl hnone
  obtain ⟨k, hk, hnone⟩ := hmiss
  exact ⟨dellValidate_error_of_ne raw (List.ne_nil_of_mem (hall k hk hnone)), hall⟩

/-- Witness for C3: an input supplying only `san-ip` is rejected with the
aggregated error list containing the missing-field entries. -/
theorem missing_san_fields_aggregated_witness :
    dellValidate [("san-ip", RawValue.str "192.0.2.1")]
      = Except.error (validateErrors dellPwerstoreConfigFields
          [("san-ip", RawValue.str "192.0.2.1")])
    ∧ ∀ k ∈ sanExternalKeys,
        lookupRaw [("san-ip", RawValue.str "192.0.2.1")] k = none →
        VError.missingRequiredField k
          ∈ validateErrors dellPwerstoreConfigFields [("san-ip", RawValue.str "192.0.2.1")] :=
  missing_san_fields_aggregated [("san-ip", RawValue.str "192.0.2.1")] (by decide)

/-- Claim C4: supplying only the mandatory connection fields (the three SAN
keys and a valid `protocol`) validates successfully, and every optional field
of the resulting validated configuration is present but unset. -/
theorem optional_fields_unset (s1 s2 s3 p : String) (hp : p = "fc" ∨ p = "iscsi") :
    ∃ cfg, dellValidate [("san-ip", RawValue.str s1), ("san-username", RawValue.str s2),
        ("san-password", RawValue.str s3), ("protocol", RawValue.str p)] = Except.ok cfg
      ∧ lookupEntry cfg "volume_backend_name" = some none
      ∧ lookupEntry cfg "backend_availability_zone" = some none
      ∧ lookupEntry cfg "driver_ssl_cert" = some none
      ∧ lookupEntry cfg "powerstore_nvme" = some none
      ∧ lookupEntry cfg "powerstore_ports" = some none
      ∧ lookupEntry cfg "replication_device" = some none := by
  rcases hp with rfl | rfl
  · exact ⟨_, rfl, rfl, rfl, rfl, rfl, rfl, rfl⟩
  · exact ⟨_, rfl, rfl, rfl, rfl, rfl, rfl, rfl⟩

/-- Witness for C4 at concrete inputs. -/
theorem optional_fields_unset_witness :
    ∃ cfg, dellValidate [("san-ip", RawValue.str "192.168.1.1"),
        ("san-username", RawValue.str "admin"), ("san-password", RawValue.str "secret"),
        ("protocol", RawValue.str "fc")] = Except.ok cfg
      ∧ lookupEntry cfg "volume_backend_name" = some none
      ∧ lookupEntry cfg "backend_availability_zone" = some none
      ∧ lookupEntry cfg "driver_ssl_cert" = some none
      ∧ lookupEntry cfg "powerstore_nvme" = some none
      ∧ lookupEntry cfg "powerstore_ports" = some none
      ∧ lookupEntry cfg "replication_device" = some none :=
  optional_fields_unset "192.168.1.1" "admin" "secret" "fc" (Or.inl rfl)

/-- Claim C9: `protocol` is declared with no default, hence required: any raw
input omitting the `protocol` key is rejected with the aggregated error list
containing a missing-field entry for `protocol`; in particular an input
supplying exactly the three SAN fields fails with precisely that error. -/
theorem protocol_required :
    (∀ raw : RawConfig, lookupRaw raw "protocol" = none →
        dellValidate raw = Except.error (validateErrors dellPwerstoreConfigFields raw)
        ∧ VError.missingRequiredField "protocol"
            ∈ validateErrors dellPwerstoreConfigFields raw)
    ∧ ∀ s1 s2 s3 : String,
        dellValidate [("san-ip", RawValue.str s1), ("san-username", RawValue.str s2),
          ("san-password", RawValue.str s3)]
          = Except.error [VError.missingRequiredField "protocol"] := by
  constructor
  · intro raw hnone
    have hmem : VError.missingRequiredField "protocol"
        ∈ validateErrors dellPwerstoreConfigFields raw :=
      mem_validateErrors_of_missing _ raw
        ⟨"protocol", ValueType.enum ["fc", "iscsi"], true,
         [FieldMeta.fieldInfo "Storage protocol (fc or iscsi)"]⟩ (by decide) rfl hnone
    exact ⟨dellValidate_error_of_ne raw (List.ne_nil_of_mem hmem), hmem⟩
  · intro s1 s2 s3
    rfl

/-- Witness for C9 at a concrete input omitting `protocol`. -/
theorem protocol_required_witness :
    (dellValidate [("san-ip", RawValue.str "192.0.2.7")]
        = Except.error (validateErrors dellPwerstoreConfigFields
            [("san-ip", RawValue.str "192.0.2.7")])
      ∧ VError.missingRequiredField "protocol"
          ∈ validateErrors dellPwerstoreConfigFields [("san-ip", RawValue.str "192.0.2.7")])
    ∧ dellValidate [("san-ip", RawValue.str "10.0.0.1"),
        ("san-username", RawValue.str "admin"), ("san-password", RawValue.str "secret")]
        = Except.error [VError.missingRequiredField "protocol"] :=
  ⟨protocol_required.1 [("san-ip", RawValue.str "192.0.2.7")] rfl,
   protocol_required.2 "10.0.0.1" "admin" "secret"⟩

/-- Claim C5: in the Dell PowerStore schema a field is secret exactly when at
least one secret marker is attached, the secret fields are exactly `san_ip`,
`san_username`, `san_password`, and each is declared with the non-null
external key `san-ip`, `san-username`, `san-password` respectively. -/
theorem secret_fields_marking :
    (dellPwerstoreConfigFields.all fun f =>
        isSecretField f == f.metadata.any isSecretMarker) = true
    ∧ (dellPwerstoreConfigFields.all fun f =>
        isSecretField f == decide (f.name ∈ ["san_ip", "san_username", "san_password"])) = true
    ∧ (findDellField "san_ip").map secretKey = some (some "san-ip")
    ∧ (findDellField "san_username").map secretKey = some (some "san-username")
    ∧ (findDellField "san_password").map secretKey = some (some "san-password")
    ∧ (findDellField "san_ip").map isSecretField = some true
    ∧ (findDellField "san_username").map isSecretField = some true
    ∧ (findDellField "san_password").map isSecretField = some true :=
  ⟨rfl, by decide, rfl, rfl, rfl, rfl, rfl, rfl⟩

/-- Claim C10: exactly the secret-marked fields carry a hyphenated external
key distinct from their internal name, every non-secret field is looked up
under its internal underscored name, and validation accordingly ignores an
underscored `san_ip` key while accepting the underscored `powerstore_nvme`
key. -/
theorem external_key_convention :
    (dellPwerstoreConfigFields.all fun f =>
        if isSecretField f then externalKey f != f.name else externalKey f == f.name) = true
    ∧ (findDellField "san_ip").map externalKey = some "san-ip"
    ∧ (findDellField "san_username").map externalKey = some "san-username"
    ∧ (findDellField "san_password").map externalKey = some "san-password"
    ∧ dellValidate [("san_ip", RawValue.str "192.0.2.1"),
        ("san-username", RawValue.str "admin"), ("san-password", RawValue.str "secret"),
        ("protocol", RawValue.str "fc")]
      = Except.error [VError.missingRequiredField "san-ip"]
    ∧ (∃ cfg, dellValidate [("san-ip", RawValue.str "192.0.2.1"),
        ("san-username", RawValue.str "admin"), ("san-password", RawValue.str "secret"),
        ("protocol", RawValue.str "fc"), ("powerstore_nvme", RawValue.str "true")]
        = Except.ok cfg
      ∧ lookupEntry cfg "powerstore_nvme" = some (some (TypedValue.str "true"))) :=
  ⟨by decide, rfl, rfl, rfl, rfl, ⟨_, rfl, rfl⟩⟩

/-- Claim C8: validation is a deterministic pure function of the raw input:
validating the same input twice gives equal results, and the result depends
only on the values the input holds under the schema's declared external keys
(so unrecognized keys and representation details of the mapping are
irrelevant). -/
theorem validate_pure :
    (∀ raw : RawConfig, dellValidate raw = dellValidate raw)
    ∧ ∀ r1 r2 : RawConfig,
        (∀ k ∈ dellExternalKeys, lookupRaw r1 k = lookupRaw r2 k) →
        dellValidate r1 = dellValidate r2 := by
  refine ⟨fun _ => rfl, fun r1 r2 h => ?_⟩
  unfold dellValidate
  exact validate_ext _ _ _ fun f hf => h (externalKey f) (List.mem_map_of_mem externalKey hf)

/-- Witness for C8: two concrete raw inputs that agree on every declared key
(one carries an extra unrecognized key) validate to the same result. -/
theorem validate_pure_witness :
    dellValidate [("san-ip", RawValue.str "192.0.2.1")]
      = dellValidate [("junk", RawValue.bool true), ("san-ip", RawValue.str "192.0.2.1")] :=
  validate_pure.2 [("san-ip", RawValue.str "192.0.2.1")]
    [("junk", RawValue.bool true), ("san-ip", RawValue.str "192.0.2.1")] (by decide)

/-- Claim C7: every registered backend's charm name starts with the product
prefix `cinder-volume-`, the charm names are pairwise distinct, and the Dell
PowerStore charm name is exactly the prefix concatenated with its backend
type. -/
theorem charm_name_prefix_unique :
    (registeredBackends.all fun b =>
        "cinder-volume-".toList.isPrefixOf b.charm_name.toList) = true
    ∧ (registeredBackends.map Backend.charm_name).Nodup
    ∧ dellPowertoreBackend.charm_name
        = "cinder-volume-" ++ dellPowertoreBackend.backend_type :=
  ⟨by decide, by decide, rfl⟩

theorem reach_invariant : ∀ r, Reachable r →
    (r.map Backend.backend_type).Nodup ∧ ∀ b ∈ r, b.backend_type ≠ "" := by
  intro r h
  induction h with
  | nil => exact ⟨List.nodup_nil, by simp⟩
  | step r0 b next h0 hr ih =>
    unfold register at hr
    by_cases h1 : b.backend_type = ""
    · rw [if_pos h1] at hr
      exact absurd hr (by simp)
    rw [if_neg h1] at hr
    by_cases h2 : (r0.any fun x => x.backend_type == b.backend_type) = true
    · rw [if_pos h2] at hr
      exact absurd hr (by simp)
    rw [if_neg h2] at hr
    by_cases h3 : (r0.any fun x => x.charm_name == b.charm_name) = true
    · rw [if_pos h3] at hr
      exact absurd hr (by simp)
    rw [if_neg h3] at hr
    have hnext : r0 ++ [b] = next := by injection hr
    subst hnext
    constructor
    · rw [List.map_append]
      refine List.Nodup.append ih.1 (List.nodup_singleton _) ?_
      intro a ha hb
      have hab : a = b.backend_type := by simpa using hb
      rcases List.mem_map.mp ha with ⟨x, hx, hax⟩
      apply h2
      rw [List.any_eq_true]
      refine ⟨x, hx, ?_⟩
      rw [beq_iff_eq, hax, hab]
    · intro x hx
      rcases List.mem_append.mp hx with hx0 | hxb
      · exact ih.2 x hx0
      · have hxeq : x = b := by simpa using hxb
        rw [hxeq]
        exact h1

theorem register_dup_type (r : List Backend) (b : Backend)
    (hex : ∃ b0 ∈ r, b0.backend_type = "dellpowerstore")
    (hb : b.backend_type = "dellpowerstore") :
    register r b = Except.error RegError.duplicateBackendType ∧ regCommit r b = r := by
  obtain ⟨b0, hb0, ht0⟩ := hex
  have h1 : ¬ b.backend_type = "" := by simp [hb]
  have h2 : (r.any fun x => x.backend_type == b.backend_type) = true := by
    rw [List.any_eq_true]
    refine ⟨b0, hb0, ?_⟩
    rw [beq_iff_eq, ht0, hb]
  have hreg : register r b = Except.error RegError.duplicateBackendType := by
    unfold register
    rw [if_neg h1, if_pos h2]
  refine ⟨hreg, ?_⟩
  unfold regCommit
  rw [hreg]

/-- Claim C6: every registry state reachable by registrations has
duplicate-free, non-empty backend types, and attempting to register a backend
of type `dellpowerstore` when one is already present fails with
`DuplicateBackendType` and leaves the registry unchanged. -/
theorem registry_backend_type_unique :
    (∀ r, Reachable r → (r.map Backend.backend_type).Nodup
        ∧ ∀ b ∈ r, b.backend_type ≠ "")
    ∧ ∀ r b, (∃ b0 ∈ r, b0.backend_type = "dellpowerstore") →
        b.backend_type = "dellpowerstore" →
        register r b = Except.error RegError.duplicateBackendType ∧ regCommit r b = r :=
  ⟨reach_invariant, register_dup_type⟩

/-- Witness for C6: the singleton registry holding the Dell PowerStore
backend is reachable and satisfies the invariant, and registering the Dell
PowerStore backend again fails with `DuplicateBackendType` without change. -/
theorem registry_backend_type_unique_witness :
    (([dellPowertoreBackend].map Backend.backend_type).Nodup
      ∧ ∀ b ∈ [dellPowertoreBackend], b.backend_type ≠ "")
    ∧ register [dellPowertoreBackend] dellPowertoreBackend
        = Except.error RegError.duplicateBackendType
    ∧ regCommit [dellPowertoreBackend] dellPowertoreBackend = [dellPowertoreBackend] :=
  ⟨registry_backend_type_unique.1 [dellPowertoreBackend]
      (Reachable.step [] dellPowertoreBackend [dellPowertoreBackend] Reachable.nil rfl),
   registry_backend_type_unique.2 [dellPowertoreBackend] dellPowertoreBackend
      ⟨dellPowertoreBackend, List.mem_singleton.mpr rfl, rfl⟩ rfl⟩
